import Mathlib

/-!
Verification of the terminal-session multiplexer and device relay client of
the `orca` desktop application (Rust sources `src-tauri/src/lib.rs`,
`src-tauri/src/portal.rs`, `src-tauri/src/database.rs`), as a shallow
embedding in Lean.

Bytes are modelled as `Nat`, session ids as `String`, the session registry
(a `HashMap<String, TerminalState>`) as an association list with unique
keys, and the PTY writer/master handles as explicit state (`input` log and
`cols`/`rows` fields).  OS randomness (`rand`) and per-message UUIDs and
timestamps are taken as parameters or omitted; the UTF-8 lossy decoding of
output bytes into relay-message strings is abstracted by carrying the byte
sequence itself.
-/

/-! ## Ring buffer (lib.rs, reader thread of `spawn_terminal`)

The Rust reader thread keeps the most recent output in a byte vector:

  buf.extend_from_slice(&buffer[..n]);
  if buf.len() > MAX_OUTPUT_BUFFER_SIZE {
      let excess = buf.len() - MAX_OUTPUT_BUFFER_SIZE;
      buf.drain(0..excess);
  }
-/

/-- `MAX_OUTPUT_BUFFER_SIZE` from lib.rs: `100 * 1024` (100 KB). -/
def MAX_OUTPUT_BUFFER_SIZE : Nat := 100 * 1024

/-- One append-and-trim step of the output ring buffer, exactly as the
reader thread performs it: extend with the chunk, then drain the excess
from the front when over capacity. -/
def bufferAppend (cap : Nat) (buf chunk : List Nat) : List Nat :=
  let b := buf ++ chunk
  if b.length > cap then b.drop (b.length - cap) else b

/-- The buffer contents after a whole sequence of chunks has been read,
starting from the empty buffer allocated at spawn time. -/
def bufferOfChunks (cap : Nat) (chunks : List (List Nat)) : List Nat :=
  chunks.foldl (bufferAppend cap) []

/-- The last `cap` bytes of a list (all of it when shorter than `cap`). -/
def takeLast (cap : Nat) (l : List Nat) : List Nat :=
  l.drop (l.length - cap)

theorem takeLast_of_le {cap : Nat} {l : List Nat} (h : l.length ≤ cap) :
    takeLast cap l = l := by
  unfold takeLast
  rw [Nat.sub_eq_zero_of_le h, List.drop_zero]

theorem bufferAppend_eq_takeLast (cap : Nat) (buf chunk : List Nat) :
    bufferAppend cap buf chunk = takeLast cap (buf ++ chunk) := by
  unfold bufferAppend
  by_cases h : (buf ++ chunk).length > cap
  · simp only [h, if_true]
    rfl
  · simp only [h, if_false]
    exact (takeLast_of_le (by omega)).symm

theorem drop_append_length_add (h x : List Nat) (k : Nat) :
    (h ++ x).drop (h.length + k) = x.drop k :=
  List.drop_append k

theorem takeLast_append_of_le {cap : Nat} (h x : List Nat)
    (hx : cap ≤ x.length) : takeLast cap (h ++ x) = takeLast cap x := by
  unfold takeLast
  rw [List.length_append, Nat.add_sub_assoc hx, drop_append_length_add]

theorem takeLast_length {cap : Nat} (l : List Nat) :
    (takeLast cap l).length = l.length - (l.length - cap) := by
  unfold takeLast
  rw [List.length_drop]

theorem takeLast_takeLast_append (cap : Nat) (p c : List Nat) :
    takeLast cap (takeLast cap p ++ c) = takeLast cap (p ++ c) := by
  by_cases hp : p.length ≤ cap
  · rw [takeLast_of_le hp]
  · have hlen : (takeLast cap p).length = cap := by
      rw [takeLast_length]; omega
    have hsplit : p.take (p.length - cap) ++ takeLast cap p = p :=
      List.take_append_drop _ p
    conv_rhs => rw [← hsplit]
    rw [List.append_assoc]
    rw [takeLast_append_of_le (p.take (p.length - cap)) (takeLast cap p ++ c)
      (by rw [List.length_append, hlen]; omega)]

theorem foldl_bufferAppend (cap : Nat) (chunks : List (List Nat)) :
    ∀ p : List Nat,
      chunks.foldl (bufferAppend cap) (takeLast cap p) =
        takeLast cap (p ++ chunks.flatten) := by
  induction chunks with
  | nil => intro p; simp [List.flatten]
  | cons c cs ih =>
      intro p
      simp only [List.foldl_cons, List.flatten_cons]
      rw [bufferAppend_eq_takeLast, takeLast_takeLast_append, ih (p ++ c),
        List.append_assoc]

theorem bufferOfChunks_eq_takeLast (cap : Nat) (chunks : List (List Nat)) :
    bufferOfChunks cap chunks = takeLast cap chunks.flatten := by
  have h0 : takeLast cap ([] : List Nat) = [] := by simp [takeLast]
  have := foldl_bufferAppend cap chunks []
  rw [h0] at this
  simpa [bufferOfChunks] using this

/-- C1: the session output ring buffer never holds more than the capacity
`MAX_OUTPUT_BUFFER_SIZE` (100 KB); whenever the appended chunks total more
than the capacity, the buffer afterwards holds exactly the last
`MAX_OUTPUT_BUFFER_SIZE` bytes of the concatenated output, in original
order (and hence has length exactly the capacity). -/
theorem ring_buffer_holds_last_capacity (chunks : List (List Nat))
    (h : MAX_OUTPUT_BUFFER_SIZE < chunks.flatten.length) :
    (bufferOfChunks MAX_OUTPUT_BUFFER_SIZE chunks).length ≤ MAX_OUTPUT_BUFFER_SIZE ∧
    bufferOfChunks MAX_OUTPUT_BUFFER_SIZE chunks =
      chunks.flatten.drop (chunks.flatten.length - MAX_OUTPUT_BUFFER_SIZE) ∧
    (bufferOfChunks MAX_OUTPUT_BUFFER_SIZE chunks).length = MAX_OUTPUT_BUFFER_SIZE := by
  rw [bufferOfChunks_eq_takeLast]
  refine ⟨?_, rfl, ?_⟩
  · rw [takeLast_length]; omega
  · rw [takeLast_length]; omega

/-- Witness for C1 at a concrete over-capacity input: a single chunk of
`MAX_OUTPUT_BUFFER_SIZE + 1` zero bytes. -/
theorem ring_buffer_holds_last_capacity_witness :
    MAX_OUTPUT_BUFFER_SIZE <
      ([List.replicate (MAX_OUTPUT_BUFFER_SIZE + 1) 0] :
        List (List Nat)).flatten.length ∧
    (bufferOfChunks MAX_OUTPUT_BUFFER_SIZE
        [List.replicate (MAX_OUTPUT_BUFFER_SIZE + 1) 0]).length ≤
      MAX_OUTPUT_BUFFER_SIZE ∧
    bufferOfChunks MAX_OUTPUT_BUFFER_SIZE
        [List.replicate (MAX_OUTPUT_BUFFER_SIZE + 1) 0] =
      ([List.replicate (MAX_OUTPUT_BUFFER_SIZE + 1) 0] :
          List (List Nat)).flatten.drop
        (([List.replicate (MAX_OUTPUT_BUFFER_SIZE + 1) 0] :
            List (List Nat)).flatten.length - MAX_OUTPUT_BUFFER_SIZE) ∧
    (bufferOfChunks MAX_OUTPUT_BUFFER_SIZE
        [List.replicate (MAX_OUTPUT_BUFFER_SIZE + 1) 0]).length =
      MAX_OUTPUT_BUFFER_SIZE := by
  have hlt : MAX_OUTPUT_BUFFER_SIZE <
      ([List.replicate (MAX_OUTPUT_BUFFER_SIZE + 1) 0] :
        List (List Nat)).flatten.length := by
    rw [show ([List.replicate (MAX_OUTPUT_BUFFER_SIZE + 1) 0] :
        List (List Nat)).flatten = List.replicate (MAX_OUTPUT_BUFFER_SIZE + 1) 0 by simp]
    rw [List.length_replicate]
    omega
  have := ring_buffer_holds_last_capacity
    [List.replicate (MAX_OUTPUT_BUFFER_SIZE + 1) 0] hlt
  exact ⟨hlt, this.1, this.2.1, this.2.2⟩

/-! ## Session registry (lib.rs)

`AppState.terminals : Mutex<HashMap<String, TerminalState>>` is modelled as
an association list with unique keys.  The PTY writer handle is modelled by
an `input` log of bytes written to it; the master handle's size state by
`cols`/`rows`.  `BASE64.encode` (used by `get_terminal_buffer` and the
output events) is implemented below over the standard alphabet.
-/

/-- The standard base64 alphabet, as used by `base64::engine::general_purpose::STANDARD`. -/
def base64Alphabet : List Char :=
  "ABCDEFGHIJKLMNOPQRSTUVWXYZabcdefghijklmnopqrstuvwxyz0123456789+/".data

def base64Char (n : Nat) : Char :=
  base64Alphabet.getD n 'A'

/-- Standard base64 encoding with `=` padding, three input bytes per four
output characters. -/
def base64Encode : List Nat → List Char
  | [] => []
  | [a] =>
      [base64Char (a / 4), base64Char (a % 4 * 16), '=', '=']
  | [a, b] =>
      [base64Char (a / 4), base64Char (a % 4 * 16 + b / 16),
       base64Char (b % 16 * 4), '=']
  | a :: b :: c :: rest =>
      base64Char (a / 4) :: base64Char (a % 4 * 16 + b / 16) ::
        base64Char (b % 16 * 4 + c / 64) :: base64Char (c % 64) ::
        base64Encode rest

/-- `TerminalState` from lib.rs.  The `master`/`writer` handles are
represented by the `cols`/`rows` size state and the `input` log. -/
structure TerminalState where
  title : String
  cwd : String
  terminal_type : String
  output_buffer : List Nat
  child_pid : Option Nat
  input : List Nat
  cols : Nat
  rows : Nat
deriving DecidableEq, Repr

/-- The session registry `AppState.terminals` (a `HashMap` in the source),
as an association list with unique keys. -/
abbrev Registry : Type := List (String × TerminalState)

/-- `HashMap::get`: the entry stored at a key, if any. -/
def regLookup : Registry → String → Option TerminalState
  | [], _ => none
  | p :: ps, id => if p.1 = id then some p.2 else regLookup ps id

/-- `HashMap` point update of the entry at a key (identity when absent). -/
def updateReg (reg : Registry) (id : String)
    (f : TerminalState → TerminalState) : Registry :=
  reg.map fun p => if p.1 = id then (p.1, f p.2) else p

/-- `HashMap::remove` of a key. -/
def removeReg (reg : Registry) (id : String) : Registry :=
  reg.filter fun p => p.1 ≠ id

/-- `write_terminal` from lib.rs: look the session up, write the bytes to
its PTY writer and flush; absent ids fail with the
`Terminal not found: ...` error (the spec's `SessionNotFound`). -/
def write_terminal (id : String) (data : List Nat) (reg : Registry) :
    Except String Registry :=
  match regLookup reg id with
  | some _ => .ok (updateReg reg id fun t => { t with input := t.input ++ data })
  | none => .error ("Terminal not found: " ++ id)

/-- `get_terminal_buffer` from lib.rs: return the base64-encoded ring
buffer of the session; absent ids fail with `Terminal not found: ...`. -/
def get_terminal_buffer (id : String) (reg : Registry) :
    Except String String :=
  match regLookup reg id with
  | some t => .ok (String.mk (base64Encode t.output_buffer))
  | none => .error ("Terminal not found: " ++ id)

/-- `resize_terminal` from lib.rs: resize the PTY of a present session
(the PTY `resize` call is modelled as always succeeding); an absent id is
a silent no-op returning `Ok(())`. -/
def resize_terminal (id : String) (cols rows : Nat) (reg : Registry) :
    Except String Registry :=
  match regLookup reg id with
  | some _ => .ok (updateReg reg id fun t => { t with cols := cols, rows := rows })
  | none => .ok reg

/-- A POSIX signal sent by the host, with its explicit target: a single
process (`libc::kill` with a positive pid) or a whole process group
(`libc::kill` with a negated pid / `killpg`). -/
inductive SignalTarget where
  | process (pid : Nat)
  | group (pid : Nat)
deriving DecidableEq, Repr

structure Signal where
  target : SignalTarget
  signo : Nat
deriving DecidableEq, Repr

/-- `libc::SIGHUP`. -/
def SIGHUP : Nat := 1

/-- `kill_terminal_process` from lib.rs: when a child pid was recorded,
send `SIGHUP` to that pid — `libc::kill(pid as i32, libc::SIGHUP)` with a
positive pid, i.e. to the single process, not its group. -/
def kill_terminal_process (t : TerminalState) : List Signal :=
  match t.child_pid with
  | some pid => [{ target := SignalTarget.process pid, signo := SIGHUP }]
  | none => []

/-- `kill_terminal` from lib.rs: remove the session from the registry if
present and signal its child; always returns `Ok(())`.  The returned pair
is the new registry and the signals sent. -/
def kill_terminal (id : String) (reg : Registry) :
    Except String (Registry × List Signal) :=
  match regLookup reg id with
  | some t => .ok (removeReg reg id, kill_terminal_process t)
  | none => .ok (reg, [])

/-- The fold step of `kill_terminals`: remove one id and collect the
signals it caused. -/
def killManyStep (acc : Registry × List Signal) (id : String) :
    Registry × List Signal :=
  match regLookup acc.1 id with
  | some t => (removeReg acc.1 id, acc.2 ++ kill_terminal_process t)
  | none => acc

/-- The registry/signal effect of `kill_terminals` from lib.rs, which
loops `kill_terminal`'s body over the given ids. -/
def kill_terminals_run (ids : List String) (reg : Registry) :
    Registry × List Signal :=
  ids.foldl killManyStep (reg, [])

/-- `kill_terminals` from lib.rs: always returns `Ok(())`. -/
def kill_terminals (ids : List String) (reg : Registry) :
    Except String (Registry × List Signal) :=
  .ok (kill_terminals_run ids reg)

/-- `TerminalInfo` from lib.rs (serialized with `type` for
`terminal_type`). -/
structure TerminalInfo where
  id : String
  title : String
  cwd : String
  terminal_type : String
deriving DecidableEq, Repr

/-- `list_terminals` from lib.rs: the id/title/cwd/type of every
registered session. -/
def list_terminals (reg : Registry) : List TerminalInfo :=
  reg.map fun p =>
    { id := p.1, title := p.2.title, cwd := p.2.cwd,
      terminal_type := p.2.terminal_type }

/-! ### Registry lemmas -/

theorem regLookup_none_keys (reg : Registry) (id : String)
    (h : regLookup reg id = none) : ∀ p ∈ reg, p.1 ≠ id := by
  induction reg with
  | nil => intro p hp; cases hp
  | cons q qs ih =>
      intro p hp
      by_cases hq : q.1 = id
      · simp [regLookup, hq] at h
      · rcases List.mem_cons.mp hp with rfl | hmem
        · exact hq
        · simp only [regLookup, hq, if_false] at h
          exact ih h p hmem

theorem regLookup_removeReg_self (reg : Registry) (id : String) :
    regLookup (removeReg reg id) id = none := by
  induction reg with
  | nil => rfl
  | cons q qs ih =>
      by_cases hq : q.1 = id
      · simpa [removeReg, List.filter_cons, hq] using ih
      · simpa [removeReg, List.filter_cons, hq, regLookup] using ih

theorem regLookup_removeReg_none (reg : Registry) (i j : String)
    (h : regLookup reg j = none) : regLookup (removeReg reg i) j = none := by
  induction reg with
  | nil => rfl
  | cons q qs ih =>
      by_cases hqj : q.1 = j
      · simp [regLookup, hqj] at h
      · simp only [regLookup, hqj, if_false] at h
        by_cases hqi : q.1 = i
        · simpa [removeReg, List.filter_cons, hqi] using ih h
        · simpa [removeReg, List.filter_cons, hqi, regLookup, hqj] using ih h

theorem killManyStep_preserves_none (acc : Registry × List Signal)
    (i j : String) (h : regLookup acc.1 j = none) :
    regLookup (killManyStep acc i).1 j = none := by
  unfold killManyStep
  cases hl : regLookup acc.1 i with
  | none => simpa [hl] using h
  | some t => simpa [hl] using regLookup_removeReg_none acc.1 i j h

theorem foldl_killMany_preserves_none (ids : List String) :
    ∀ (acc : Registry × List Signal) (j : String),
      regLookup acc.1 j = none →
      regLookup (ids.foldl killManyStep acc).1 j = none := by
  induction ids with
  | nil => intro acc j h; simpa using h
  | cons i is ih =>
      intro acc j h
      simpa [List.foldl_cons] using ih _ j (killManyStep_preserves_none acc i j h)

theorem killManyStep_removes (acc : Registry × List Signal) (i : String) :
    regLookup (killManyStep acc i).1 i = none := by
  unfold killManyStep
  cases hl : regLookup acc.1 i with
  | none => simp [hl]
  | some t => simpa [hl] using regLookup_removeReg_self acc.1 i

theorem kill_terminals_run_absent (ids : List String) :
    ∀ (reg : Registry) (acc : List Signal) (j : String), j ∈ ids →
      regLookup (ids.foldl killManyStep (reg, acc)).1 j = none := by
  induction ids with
  | nil => intro _ _ _ h; cases h
  | cons i is ih =>
      intro reg acc j hj
      rcases List.mem_cons.mp hj with rfl | hmem
      · rw [List.foldl_cons]
        exact foldl_killMany_preserves_none is _ j (killManyStep_removes (reg, acc) j)
      · rw [List.foldl_cons]
        cases hl : regLookup reg i with
        | none => simpa [killManyStep, hl] using ih reg acc j hmem
        | some t =>
            have := ih (removeReg reg i) (acc ++ kill_terminal_process t) j hmem
            simpa [killManyStep, hl] using this

theorem list_terminals_not_mem (reg : Registry) (id : String)
    (h : regLookup reg id = none) :
    (list_terminals reg).all (fun info => info.id ≠ id) = true := by
  rw [List.all_eq_true]
  intro info hmem
  rcases List.mem_map.mp hmem with ⟨p, hp, rfl⟩
  simpa using regLookup_none_keys reg id h p hp

/-! ### C2 and C5 -/

/-- C2: for every session id absent from the registry, `write_terminal`
and `get_terminal_buffer` fail with the `Terminal not found` error (the
spec's `SessionNotFound`), while `resize_terminal` and `kill_terminal`
return `Ok` without changing any state (no registry change, no signal
sent). -/
theorem absent_session_ops (reg : Registry) (id : String) (data : List Nat)
    (cols rows : Nat) (h : regLookup reg id = none) :
    write_terminal id data reg = .error ("Terminal not found: " ++ id) ∧
    get_terminal_buffer id reg = .error ("Terminal not found: " ++ id) ∧
    resize_terminal id cols rows reg = .ok reg ∧
    kill_terminal id reg = .ok (reg, []) := by
  refine ⟨?_, ?_, ?_, ?_⟩ <;>
    simp [write_terminal, get_terminal_buffer, resize_terminal, kill_terminal, h]

/-- Example session used in concrete witnesses: title "Shell", two bytes
of buffered output, child pid 42. -/
def exampleTerminal : TerminalState :=
  { title := "Shell", cwd := "/tmp", terminal_type := "shell",
    output_buffer := [104, 105], child_pid := some 42, input := [],
    cols := 80, rows := 24 }

def exampleRegistry : Registry := [("t1", exampleTerminal)]

/-- Witness for C2 at a concrete absent id. -/
theorem absent_session_ops_witness :
    regLookup exampleRegistry "t2" = none ∧
    (write_terminal "t2" [10] exampleRegistry =
        .error ("Terminal not found: " ++ "t2") ∧
      get_terminal_buffer "t2" exampleRegistry =
        .error ("Terminal not found: " ++ "t2") ∧
      resize_terminal "t2" 100 50 exampleRegistry = .ok exampleRegistry ∧
      kill_terminal "t2" exampleRegistry = .ok (exampleRegistry, [])) := by
  have h : regLookup exampleRegistry "t2" = none := by decide
  exact ⟨h, absent_session_ops exampleRegistry "t2" [10] 100 50 h⟩

/-- C5 counterexample: on a registry holding session "t1" with child pid
42, `kill_terminal` emits exactly one signal, `SIGHUP` addressed to the
single process 42 (`libc::kill` with a positive pid) — no process-group
signal is ever sent, contradicting the claim that the process group is
signalled. -/
theorem kill_signals_only_child_counterexample :
    kill_terminal "t1" exampleRegistry =
      .ok ([], [{ target := SignalTarget.process 42, signo := SIGHUP }]) ∧
    ∀ s ∈ [({ target := SignalTarget.process 42, signo := SIGHUP } : Signal)],
      ∀ pid, s.target ≠ SignalTarget.group pid := by
  refine ⟨rfl, ?_⟩
  intro s hs pid hcontra
  rcases List.mem_singleton.mp hs with rfl
  cases hcontra

/-- C5 (amended): for every id present in the registry, `kill_terminal`
(and `kill_terminals` over a list of ids) removes the session(s) from the
registry so they no longer appear in `list_terminals`, and signals the
direct child process with `SIGHUP` (not the process group); killing an
already-absent id is a no-op success. -/
theorem kill_removes_and_signals_child (reg : Registry) (id : String)
    (t : TerminalState) (ids : List String) (h : regLookup reg id = some t) :
    kill_terminal id reg = .ok (removeReg reg id, kill_terminal_process t) ∧
    regLookup (removeReg reg id) id = none ∧
    (list_terminals (removeReg reg id)).all (fun info => info.id ≠ id) = true ∧
    (∀ pid, t.child_pid = some pid →
      kill_terminal_process t =
        [{ target := SignalTarget.process pid, signo := SIGHUP }]) ∧
    kill_terminals ids reg = .ok (kill_terminals_run ids reg) ∧
    (∀ j ∈ ids, regLookup (kill_terminals_run ids reg).1 j = none ∧
      (list_terminals (kill_terminals_run ids reg).1).all
        (fun info => info.id ≠ j) = true) ∧
    (∀ j, regLookup reg j = none → kill_terminal j reg = .ok (reg, [])) := by
  refine ⟨by simp [kill_terminal, h], regLookup_removeReg_self reg id,
    list_terminals_not_mem _ _ (regLookup_removeReg_self reg id), ?_, rfl,
    ?_, ?_⟩
  · intro pid hpid; simp [kill_terminal_process, hpid]
  · intro j hj
    have habs := kill_terminals_run_absent ids reg [] j hj
    exact ⟨habs, list_terminals_not_mem _ _ habs⟩
  · intro j hj; simp [kill_terminal, hj]

/-- Witness for C5 (amended) at the concrete one-session registry. -/
theorem kill_removes_and_signals_child_witness :
    regLookup exampleRegistry "t1" = some exampleTerminal ∧
    kill_terminal "t1" exampleRegistry =
      .ok (removeReg exampleRegistry "t1", kill_terminal_process exampleTerminal) := by
  have h : regLookup exampleRegistry "t1" = some exampleTerminal := by decide
  exact ⟨h, (kill_removes_and_signals_child exampleRegistry "t1"
    exampleTerminal ["t1"] h).1⟩

/-! ## Relay client (portal.rs)

The `Portal` struct and the connect loop of `Portal::connect`.  The
`UnboundedSender<String>` handle is modelled by an `Option Unit` presence
flag; per-message UUIDs and millisecond timestamps are omitted from the
message model as they are nondeterministic wrappers around the payload.
-/

/-- `LinkedDevice` from database.rs. -/
structure LinkedDevice where
  id : String
  name : String
  device_type : String
  paired_at : String
deriving DecidableEq, Repr

/-- `PortalConfig` from database.rs. -/
structure PortalConfig where
  is_enabled : Bool
  relay_url : String
  device_id : String
  device_name : String
  pairing_code : String
  pairing_passphrase : String
  linked_devices : List LinkedDevice
deriving DecidableEq, Repr

/-- `ProjectFolder` from lib.rs / `ProjectFolderInfo` from portal.rs
(identical fields). -/
structure ProjectFolderInfo where
  id : String
  name : String
  path : String
deriving DecidableEq, Repr

/-- `Project` from lib.rs, as returned by `Database::get_all_projects`. -/
structure Project where
  id : String
  name : String
  path : String
  last_opened : String
  folders : Option (List ProjectFolderInfo)
deriving DecidableEq, Repr

/-- `ProjectInfo` from portal.rs. -/
structure ProjectInfo where
  id : String
  name : String
  path : String
  last_opened : String
  folders : Option (List ProjectFolderInfo)
deriving DecidableEq, Repr

/-- The `Project → ProjectInfo` conversion performed in the
`request_status` branch of `handle_message`. -/
def toProjectInfo (p : Project) : ProjectInfo :=
  { id := p.id, name := p.name, path := p.path, last_opened := p.last_opened,
    folders := p.folders }

/-- The outbound relay messages the embedded code constructs (`json!`
objects in the source).  The message-scoped UUID `id` field and the
millisecond `timestamp` field are omitted (nondeterministic); terminal
output data is carried as the byte sequence rather than its UTF-8 lossy
decoding. -/
inductive OutMsg where
  | register_desktop (deviceId deviceName pairingCode pairingPassphrase : String)
  | terminal_output (terminalId : String) (data : List Nat)
  | attach_terminal_response (terminalId : String) (success : Bool)
  | status_update (connectionStatus : String) (projects : List ProjectInfo)
      (activeProjectId : Option String) (terminals : List TerminalInfo)
      (theme : Option String)
deriving DecidableEq, Repr

/-- `Portal` from portal.rs.  `sender` is the
`Arc<Mutex<Option<UnboundedSender<String>>>>` handle, reduced to its
presence: it is `some ()` exactly while a connection's writer task is
installed — the `Registered` state of the spec's connection state
machine. -/
structure Portal where
  config : PortalConfig
  is_connected : Bool
  mobile_terminal_ids : List String
  sender : Option Unit
deriving DecidableEq, Repr

/-- The spec's `Registered` state as observable in the code: an outbound
sender handle is installed. -/
def Portal.registered (p : Portal) : Bool :=
  p.sender.isSome

/-- `Portal::send_message`: serialize and enqueue when a sender is
installed, silently do nothing otherwise.  The second component is the
message enqueued, if any; the first is the (unchanged) portal. -/
def send_message (p : Portal) (msg : OutMsg) : Portal × Option OutMsg :=
  match p.sender with
  | some _ => (p, some msg)
  | none => (p, none)

/-- `forward_terminal_output` from portal.rs: drop the chunk unless the
session id is in `mobile_terminal_ids`, otherwise hand it to
`send_message`. -/
def forward_terminal_output (p : Portal) (terminal_id : String)
    (data : List Nat) : Option OutMsg :=
  if p.mobile_terminal_ids.contains terminal_id then
    (send_message p (OutMsg.terminal_output terminal_id data)).2
  else none

/-- A host GUI event emitted through `app_handle.emit`. -/
structure EmitEvent where
  channel : String
  terminalId : Option String
  data : String
deriving DecidableEq, Repr

/-- The effect of one `Ok(n)` iteration of the reader thread in
`spawn_terminal` on one chunk: the new ring buffer, the two local events
emitted (terminal-specific and generic), and the relay message forwarded,
if any. -/
structure ReaderStepResult where
  buffer : List Nat
  emitted : List EmitEvent
  forwarded : Option OutMsg
deriving DecidableEq, Repr

/-- One chunk through the reader thread of `spawn_terminal`: buffering and
relay forwarding happen only under the `portal_enabled` flag; the two
local emits are unconditional. -/
def reader_step (portal_enabled : Bool) (portal : Option Portal)
    (terminal_id : String) (buf chunk : List Nat) : ReaderStepResult :=
  let emits : List EmitEvent :=
    [{ channel := "terminal-output-" ++ terminal_id, terminalId := none,
       data := String.mk (base64Encode chunk) },
     { channel := "terminal-output", terminalId := some terminal_id,
       data := String.mk (base64Encode chunk) }]
  if portal_enabled then
    { buffer := bufferAppend MAX_OUTPUT_BUFFER_SIZE buf chunk,
      emitted := emits,
      forwarded :=
        match portal with
        | some p => forward_terminal_output p terminal_id chunk
        | none => none }
  else
    { buffer := buf, emitted := emits, forwarded := none }

theorem forward_terminal_output_spec (p : Portal) (id : String)
    (data : List Nat) :
    forward_terminal_output p id data =
      if p.mobile_terminal_ids.contains id ∧ p.sender.isSome then
        some (OutMsg.terminal_output id data)
      else none := by
  unfold forward_terminal_output send_message
  cases hs : p.sender <;>
    by_cases hm : p.mobile_terminal_ids.contains id <;> simp [hs, hm]

/-- C8: a message passed to `send_message` while the client is not
`Registered` (no sender handle installed) is silently dropped: nothing is
enqueued, the portal state is unchanged, and no error is raised (the
function is total and returns no error value). -/
theorem send_message_dropped_when_not_registered (p : Portal) (msg : OutMsg)
    (h : Portal.registered p = false) : send_message p msg = (p, none) := by
  cases hs : p.sender with
  | none => simp [send_message, hs]
  | some u => simp [Portal.registered, hs] at h

def exampleConfig : PortalConfig :=
  { is_enabled := true, relay_url := "wss://relay.chell.app",
    device_id := "0123456789abcdef0123456789abcdef", device_name := "Desktop",
    pairing_code := "123456",
    pairing_passphrase := "apple-banana-cherry-dolphin-eagle-forest",
    linked_devices := [] }

/-- A portal whose connection is down (no sender installed). -/
def examplePortalDown : Portal :=
  { config := exampleConfig, is_connected := false,
    mobile_terminal_ids := [], sender := none }

/-- Witness for C8 at a concrete disconnected portal. -/
theorem send_message_dropped_witness :
    Portal.registered examplePortalDown = false ∧
    send_message examplePortalDown (OutMsg.attach_terminal_response "t1" true) =
      (examplePortalDown, none) := by
  have h : Portal.registered examplePortalDown = false := rfl
  exact ⟨h, send_message_dropped_when_not_registered examplePortalDown
    (OutMsg.attach_terminal_response "t1" true) h⟩

/-- A registered portal with session "t1" in the remote-attached set. -/
def examplePortalAttached : Portal :=
  { config := exampleConfig, is_connected := true,
    mobile_terminal_ids := ["t1"], sender := some () }

/-- C4 counterexample: with the `portal_enabled` flag clear, a chunk read
from the PTY is NOT appended to the ring buffer (the buffer stays empty,
while an unconditional append would yield the chunk), and is not
forwarded even though the session id is in the remote-attached set and a
sender is installed (Registered).  This refutes "(a) ... unconditionally,
for every chunk". -/
theorem reader_step_gated_counterexample :
    (reader_step false (some examplePortalAttached) "t1" [] [7]).buffer = [] ∧
    (reader_step false (some examplePortalAttached) "t1" [] [7]).buffer ≠
      bufferAppend MAX_OUTPUT_BUFFER_SIZE [] [7] ∧
    examplePortalAttached.mobile_terminal_ids.contains "t1" = true ∧
    examplePortalAttached.sender.isSome = true ∧
    (reader_step false (some examplePortalAttached) "t1" [] [7]).forwarded =
      none := by
  refine ⟨rfl, ?_, rfl, rfl, rfl⟩
  intro hcontra
  have h7 : bufferAppend MAX_OUTPUT_BUFFER_SIZE [] [7] = [7] := by
    unfold bufferAppend MAX_OUTPUT_BUFFER_SIZE
    simp
  rw [h7] at hcontra
  exact absurd hcontra (by simp [reader_step])

/-- C4 (amended): for every chunk read from a session's PTY, the reader
thread (a) appends the chunk to the session's ring buffer iff the
`portal_enabled` flag is set, (b) unconditionally emits the two local
output events for the chunk (the terminal-specific channel and the
generic channel), and (c) forwards the same chunk as an outbound relay
message iff the flag is set, a portal handle exists, the session id is in
the remote-attached set, and a sender is installed (Registered); in every
other case nothing is forwarded. -/
theorem reader_step_spec (portal_enabled : Bool) (portal : Option Portal)
    (id : String) (buf chunk : List Nat) :
    (reader_step portal_enabled portal id buf chunk).emitted =
      [{ channel := "terminal-output-" ++ id, terminalId := none,
         data := String.mk (base64Encode chunk) },
       { channel := "terminal-output", terminalId := some id,
         data := String.mk (base64Encode chunk) }] ∧
    (reader_step portal_enabled portal id buf chunk).buffer =
      (if portal_enabled then bufferAppend MAX_OUTPUT_BUFFER_SIZE buf chunk
       else buf) ∧
    ((reader_step portal_enabled portal id buf chunk).forwarded =
        some (OutMsg.terminal_output id chunk) ↔
      portal_enabled = true ∧ ∃ p, portal = some p ∧
        p.mobile_terminal_ids.contains id = true ∧ p.sender.isSome = true) ∧
    (∀ m, (reader_step portal_enabled portal id buf chunk).forwarded = some m →
      m = OutMsg.terminal_output id chunk) := by
  cases portal_enabled with
  | false => simp [reader_step]
  | true =>
      cases portal with
      | none => simp [reader_step]
      | some p =>
          simp only [reader_step, forward_terminal_output_spec]
          by_cases hm : p.mobile_terminal_ids.contains id = true <;>
            cases hs : p.sender <;> simp [hm, hs]

/-! ## Command Bridge (portal.rs, `handle_message`)

Inbound relay messages are modelled structurally (the source extracts the
fields from raw JSON with empty-string defaults, so a missing id is the
empty string here).  The handler's side effects are recorded as an
ordered action trace, so that ordering claims (replay before attach) are
equalities on the trace.
-/

/-- The inbound messages `handle_message` dispatches on (its `msg_type`
match).  Payloads the handler treats as opaque (`command`,
`select_project`) carry no fields here. -/
inductive InMsg where
  | device_list (devices : List LinkedDevice)
  | request_status
  | command
  | terminal_input (terminalId : String) (data : List Nat)
  | attach_terminal (terminalId : String)
  | detach_terminal (terminalId : String)
  | kill_terminal (terminalId : String)
  | select_project
  | error_event (code message : String)
  | unknown (tag : String)
deriving DecidableEq, Repr

/-- One atomic side effect of the dispatch handler, in execution order. -/
inductive HandlerAction where
  | send (msg : OutMsg)
  | insertAttached (terminalId : String)
  | removeAttached (terminalId : String)
  | emitEvent (channel : String)
  | writePty (terminalId : String) (data : List Nat)
  | signal (s : Signal)
  | persistConfig (cfg : PortalConfig)
deriving DecidableEq, Repr

/-- The state `handle_message` reads and writes: the shared
`config_holder`, the persisted copy, the project store, the session
registry and the `mobile_terminal_ids` remote-attached set. -/
structure DispatchState where
  config : PortalConfig
  dbConfig : PortalConfig
  projects : List Project
  terminals : Registry
  mobileTerminals : List String
deriving DecidableEq, Repr

/-- `handle_message` from portal.rs: the new state and the ordered trace
of side effects of one inbound message. -/
def handle_message (st : DispatchState) : InMsg → DispatchState × List HandlerAction
  | .device_list devices =>
      let cfg := { st.config with linked_devices := devices }
      ({ st with config := cfg, dbConfig := cfg },
       [.persistConfig cfg, .emitEvent "portal-devices-updated"])
  | .request_status =>
      (st, [.send (OutMsg.status_update "connected"
        (st.projects.map toProjectInfo) none (list_terminals st.terminals)
        (some "tokyo"))])
  | .command => (st, [.emitEvent "portal-command"])
  | .terminal_input id data =>
      let st1 := { st with mobileTerminals := st.mobileTerminals.insert id }
      match regLookup st.terminals id with
      | some _ =>
          let reg2 := updateReg st.terminals id
            (fun t => { t with input := t.input ++ data })
          ({ st1 with terminals := reg2 },
           [.insertAttached id, .writePty id data])
      | none => (st1, [.insertAttached id])
  | .attach_terminal id =>
      let buffer_data :=
        match regLookup st.terminals id with
        | some t => t.output_buffer
        | none => []
      ({ st with mobileTerminals := st.mobileTerminals.insert id },
       (if buffer_data ≠ [] then
          [HandlerAction.send (OutMsg.terminal_output id buffer_data)]
        else []) ++
         [.insertAttached id,
          .send (OutMsg.attach_terminal_response id true)])
  | .detach_terminal id =>
      ({ st with mobileTerminals := st.mobileTerminals.erase id },
       [.removeAttached id])
  | .kill_terminal id =>
      let st1 := { st with mobileTerminals := st.mobileTerminals.erase id }
      match regLookup st.terminals id with
      | some t =>
          ({ st1 with terminals := removeReg st.terminals id },
           .removeAttached id :: (kill_terminal_process t).map HandlerAction.signal)
      | none => (st1, [.removeAttached id])
  | .select_project => (st, [.emitEvent "portal-select-project"])
  | .error_event _ _ => (st, [.emitEvent "portal-error"])
  | .unknown _ => (st, [])

/-- C3: for an `attach_terminal` message whose target session exists and
has a non-empty ring buffer, the handler's trace is exactly: send one
`terminal_output` carrying the buffered snapshot, THEN add the id to the
remote-attached set, THEN send `attach_terminal_response` with success
true — so the replay is sent strictly before the id joins the set (hence
before any live chunk can be forwarded to that consumer). -/
theorem attach_replays_before_attach (st : DispatchState) (id : String)
    (t : TerminalState) (h : regLookup st.terminals id = some t)
    (hne : t.output_buffer ≠ []) :
    handle_message st (.attach_terminal id) =
      ({ st with mobileTerminals := st.mobileTerminals.insert id },
       [HandlerAction.send (OutMsg.terminal_output id t.output_buffer),
        HandlerAction.insertAttached id,
        HandlerAction.send (OutMsg.attach_terminal_response id true)]) := by
  simp [handle_message, h, hne]

def exampleDispatchState : DispatchState :=
  { config := exampleConfig, dbConfig := exampleConfig, projects := [],
    terminals := exampleRegistry, mobileTerminals := [] }

/-- Witness for C3 on the concrete registry: "t1" has the two buffered
bytes 104 105. -/
theorem attach_replays_before_attach_witness :
    regLookup exampleDispatchState.terminals "t1" = some exampleTerminal ∧
    exampleTerminal.output_buffer ≠ [] ∧
    handle_message exampleDispatchState (.attach_terminal "t1") =
      ({ exampleDispatchState with
          mobileTerminals := exampleDispatchState.mobileTerminals.insert "t1" },
       [HandlerAction.send (OutMsg.terminal_output "t1" exampleTerminal.output_buffer),
        HandlerAction.insertAttached "t1",
        HandlerAction.send (OutMsg.attach_terminal_response "t1" true)]) := by
  have h : regLookup exampleDispatchState.terminals "t1" = some exampleTerminal :=
    by decide
  have hne : exampleTerminal.output_buffer ≠ [] := by decide
  exact ⟨h, hne, attach_replays_before_attach exampleDispatchState "t1"
    exampleTerminal h hne⟩

/-- C9: a `request_status` message leaves the state unchanged and
enqueues exactly one `status_update` reply carrying all known projects
and every registered session with its id, title, cwd and kind; the
`activeProjectId` field is always `none` because the host backend tracks
no active project (the source hardcodes `null`). -/
theorem request_status_one_reply (st : DispatchState) :
    handle_message st .request_status =
      (st, [HandlerAction.send (OutMsg.status_update "connected"
        (st.projects.map toProjectInfo) none (list_terminals st.terminals)
        (some "tokyo"))]) ∧
    (∀ pr ∈ st.projects, toProjectInfo pr ∈ st.projects.map toProjectInfo) ∧
    ∀ p ∈ st.terminals,
      ({ id := p.1, title := p.2.title, cwd := p.2.cwd,
         terminal_type := p.2.terminal_type } : TerminalInfo) ∈
        list_terminals st.terminals := by
  refine ⟨rfl, ?_, ?_⟩
  · intro pr hpr
    exact List.mem_map.mpr ⟨pr, hpr, rfl⟩
  · intro p hp
    exact List.mem_map.mpr ⟨p, hp, rfl⟩

/-- Witness for C9 at the concrete state. -/
theorem request_status_one_reply_witness :
    handle_message exampleDispatchState .request_status =
      (exampleDispatchState, [HandlerAction.send (OutMsg.status_update "connected"
        (exampleDispatchState.projects.map toProjectInfo) none
        (list_terminals exampleDispatchState.terminals) (some "tokyo"))]) :=
  (request_status_one_reply exampleDispatchState).1

/-- C10: `terminal_input` and `attach_terminal` for a session id absent
from the registry still insert the unknown id into the remote-attached
set; `attach_terminal` still answers `attach_terminal_response` with
success true (and, the buffer snapshot being empty, sends no
`terminal_output`); the registry is left unchanged. -/
theorem unknown_id_still_attached (st : DispatchState) (id : String)
    (data : List Nat) (h : regLookup st.terminals id = none) :
    handle_message st (.terminal_input id data) =
      ({ st with mobileTerminals := st.mobileTerminals.insert id },
       [HandlerAction.insertAttached id]) ∧
    handle_message st (.attach_terminal id) =
      ({ st with mobileTerminals := st.mobileTerminals.insert id },
       [HandlerAction.insertAttached id,
        HandlerAction.send (OutMsg.attach_terminal_response id true)]) ∧
    id ∈ st.mobileTerminals.insert id ∧
    (handle_message st (.terminal_input id data)).1.terminals = st.terminals ∧
    (handle_message st (.attach_terminal id)).1.terminals = st.terminals := by
  refine ⟨?_, ?_, List.mem_insert_self id st.mobileTerminals, ?_, ?_⟩ <;>
    simp [handle_message, h]

/-- Witness for C10 at the concrete state with absent id "ghost". -/
theorem unknown_id_still_attached_witness :
    regLookup exampleDispatchState.terminals "ghost" = none ∧
    handle_message exampleDispatchState (.attach_terminal "ghost") =
      ({ exampleDispatchState with
          mobileTerminals := exampleDispatchState.mobileTerminals.insert "ghost" },
       [HandlerAction.insertAttached "ghost",
        HandlerAction.send (OutMsg.attach_terminal_response "ghost" true)]) := by
  have h : regLookup exampleDispatchState.terminals "ghost" = none := by decide
  exact ⟨h, (unknown_id_still_attached exampleDispatchState "ghost" [] h).2.1⟩

/-! ## Connect loop lifecycle (portal.rs `Portal::connect` / `disconnect`,
lib.rs `portal_enable` / `portal_disable`)

`Portal::connect` spawns an async loop holding `Arc` clones of the
portal's `config`, `is_connected`, `sender` and `mobile_terminal_ids`
cells.  The `Portal` record below therefore doubles as the loop's shared
state: mutating a `Portal` value models mutating the shared cells the
loop reads.  `portal_disable` takes the `Portal` out of the app state and
calls `disconnect`, which only clears `sender`; nothing ever writes
`false` into the loop's shared `config.is_enabled`.
-/

inductive LoopDecision where
  | stop
  | attempt
deriving DecidableEq, Repr

/-- The enabled check at the top of each iteration of the spawned connect
loop (and again before each reconnect sleep): break when
`!config.is_enabled`, else make another connection attempt. -/
def loop_check (l : Portal) : LoopDecision :=
  if l.config.is_enabled then .attempt else .stop

/-- The `Ok((ws_stream, _))` arm of a connection attempt: connectivity
true and a fresh sender installed in the shared cells. -/
def on_socket_connected (l : Portal) : Portal :=
  { l with is_connected := true, sender := some () }

/-- `Portal::disconnect`: sets the shared sender cell to `None` — and
nothing else. -/
def portal_disconnect (l : Portal) : Portal :=
  { l with sender := none }

/-- The portal-related slice of `AppState` together with the persisted
`PortalConfig` document. -/
structure PortalAppState where
  dbConfig : PortalConfig
  portal_enabled : Bool
  portal : Option Portal
deriving DecidableEq, Repr

/-- `portal_enable` from lib.rs: load the persisted config, set
`is_enabled`, save it, set the flag, build a fresh `Portal` from that
config and spawn its connect loop (the returned record is the loop's
shared state). -/
def portal_enable (app : PortalAppState) : Except String PortalAppState :=
  let cfg := { app.dbConfig with is_enabled := true }
  .ok { dbConfig := cfg, portal_enabled := true,
        portal := some { config := cfg, is_connected := false,
                         mobile_terminal_ids := [], sender := none } }

/-- `portal_disable` from lib.rs: clear `is_enabled` in the persisted
config, clear the flag, take the `Portal` out of the app state and call
`Portal::disconnect` on it.  The second component is the shared state the
already-spawned connect loop keeps referencing after the handle is
dropped. -/
def portal_disable (app : PortalAppState) :
    Except String (PortalAppState × Option Portal) :=
  let cfg := { app.dbConfig with is_enabled := false }
  .ok ({ dbConfig := cfg, portal_enabled := false, portal := none },
       app.portal.map portal_disconnect)

/-- Connectivity as `portal_get_status` reports it: false whenever no
portal handle is installed in the app state. -/
def portal_status_connected (app : PortalAppState) : Bool :=
  (app.portal.map Portal.is_connected).getD false

/-- `portal_send_message` from lib.rs: goes through the app state's
portal handle, so after `portal_disable` nothing is enqueued. -/
def portal_send_message (app : PortalAppState) (msg : OutMsg) :
    Except String (Option OutMsg) :=
  match app.portal with
  | some p => .ok (send_message p msg).2
  | none => .error "Portal not connected"

def appStart : PortalAppState :=
  { dbConfig := { exampleConfig with is_enabled := false },
    portal_enabled := false, portal := none }

/-- C6, demonstrated as a code bug at the failing input
enable-connect-disable: `portal_disable` leaves observed connectivity
false and the app-state portal handle gone (so `portal_send_message`
attempts no further sends), BUT the spawned connect loop's shared
`config.is_enabled` is still true, so `loop_check` still answers
`attempt`: the loop is NOT torn down and will keep reconnecting every 5
seconds until process exit — `disconnect` only clears the sender cell and
nothing ever clears the loop's enabled flag, contradicting the spec's
"tears down the connect loop permanently until enable() is called
again" and its at-most-one-loop invariant after a later re-enable. -/
theorem disable_leaves_connect_loop_running :
    ∃ app1 p app2 orphan,
      portal_enable appStart = .ok app1 ∧
      app1.portal = some p ∧
      portal_disable { app1 with portal := some (on_socket_connected p) } =
        .ok (app2, some orphan) ∧
      Portal.registered (on_socket_connected p) = true ∧
      orphan.config.is_enabled = true ∧
      loop_check orphan = LoopDecision.attempt ∧
      loop_check orphan ≠ LoopDecision.stop ∧
      app2.portal = none ∧
      portal_status_connected app2 = false ∧
      portal_send_message app2 (OutMsg.terminal_output "t1" [7]) =
        .error "Portal not connected" := by
  refine ⟨_, _, _, _, rfl, rfl, rfl, rfl, rfl, rfl, ?_, rfl, rfl, rfl⟩
  intro hcontra
  cases hcontra

/-! ## Pairing credentials (database.rs `generate_pairing_code` /
`generate_passphrase`, lib.rs `portal_regenerate_pairing`)

The `rand` samples are explicit parameters: the code value drawn by
`rng.gen_range(0..1000000)` and the six word indices drawn by
`WORDS.choose(&mut rng)`.
-/

/-- The 24-word dictionary from database.rs (inlined again in
`portal_regenerate_pairing` in lib.rs). -/
def WORDS : List String :=
  ["apple", "banana", "cherry", "dolphin", "eagle", "forest",
   "garden", "harbor", "island", "jungle", "kitten", "lemon",
   "mountain", "nectar", "ocean", "palace", "quartz", "river",
   "sunset", "temple", "umbrella", "valley", "willow", "yellow"]

/-- Decimal digit characters of `n`, most significant first (empty for
0 — the six-zero pad below makes the zero case agree with Rust's
Display). -/
def decimalChars (n : Nat) : List Char :=
  (Nat.digits 10 n).reverse.map Nat.digitChar

/-- Rust `format!` with the 06 width-and-zero-pad spec applied to `n`:
the decimal representation left-padded with '0' to six characters. -/
def format06 (n : Nat) : String :=
  String.mk (List.replicate (6 - (decimalChars n).length) '0' ++ decimalChars n)

/-- `generate_pairing_code` from database.rs, with the sampled
`gen_range(0..1000000)` value as explicit parameter. -/
def generate_pairing_code (n : Nat) : String :=
  format06 n

/-- `generate_passphrase` from database.rs, with the six sampled word
indices as explicit parameters: the chosen words joined by hyphens. -/
def generate_passphrase (picks : Fin 6 → Fin WORDS.length) : String :=
  String.intercalate "-" ((List.finRange 6).map fun i => WORDS.get (picks i))

/-- `portal_regenerate_pairing` from lib.rs: overwrite the pairing code
and passphrase with freshly generated ones and clear the linked-device
list (the updated config is persisted and returned; persistence is
modelled as succeeding). -/
def portal_regenerate_pairing (cfg : PortalConfig) (n : Nat)
    (picks : Fin 6 → Fin WORDS.length) : PortalConfig :=
  { cfg with pairing_code := generate_pairing_code n,
             pairing_passphrase := generate_passphrase picks,
             linked_devices := [] }

theorem decimalChars_length_le (n : Nat) (h : n < 1000000) :
    (decimalChars n).length ≤ 6 := by
  unfold decimalChars
  rw [List.length_map, List.length_reverse]
  by_cases h0 : n = 0
  · subst h0; simp
  · by_contra hlen
    push_neg at hlen
    have h10 : (10 : ℕ) ^ (Nat.digits 10 n).length ≤ 10 * n :=
      Nat.base_pow_length_digits_le 10 n (by norm_num) h0
    have h7 : (10 : ℕ) ^ 7 ≤ 10 ^ (Nat.digits 10 n).length :=
      Nat.pow_le_pow_right (by norm_num) (by omega)
    have hval : (10 : ℕ) ^ 7 = 10000000 := by norm_num
    omega

theorem decimalChars_isDigit (n : Nat) :
    ∀ c ∈ decimalChars n, c.isDigit = true := by
  intro c hc
  unfold decimalChars at hc
  rcases List.mem_map.mp hc with ⟨d, hd, rfl⟩
  have hd10 : d < 10 :=
    Nat.digits_lt_base (by norm_num) (List.mem_reverse.mp hd)
  have hdig : ∀ d < 10, (Nat.digitChar d).isDigit = true := by decide
  exact hdig d hd10

/-- C7: `portal_regenerate_pairing` always produces a pairing code of
exactly six decimal digits (zero-padded), a passphrase that is six
dictionary words joined by hyphens, and leaves the linked-device list
empty. -/
theorem regenerate_pairing_spec (cfg : PortalConfig) (n : Nat)
    (picks : Fin 6 → Fin WORDS.length) (h : n < 1000000) :
    (portal_regenerate_pairing cfg n picks).pairing_code.length = 6 ∧
    (∀ c ∈ (portal_regenerate_pairing cfg n picks).pairing_code.data,
      c.isDigit = true) ∧
    (∃ ws : List String, ws.length = 6 ∧ (∀ w ∈ ws, w ∈ WORDS) ∧
      (portal_regenerate_pairing cfg n picks).pairing_passphrase =
        String.intercalate "-" ws) ∧
    (portal_regenerate_pairing cfg n picks).linked_devices = [] := by
  have hk : (decimalChars n).length ≤ 6 := decimalChars_length_le n h
  refine ⟨?_, ?_, ?_, rfl⟩
  · show (format06 n).length = 6
    unfold format06
    rw [show ∀ cs : List Char, (String.mk cs).length = cs.length from
      fun cs => rfl]
    rw [List.length_append, List.length_replicate]
    omega
  · intro c hc
    have hc2 : c ∈ List.replicate (6 - (decimalChars n).length) '0' ++
        decimalChars n := hc
    rcases List.mem_append.mp hc2 with hrep | hdig
    · rw [List.eq_of_mem_replicate hrep]; decide
    · exact decimalChars_isDigit n c hdig
  · refine ⟨(List.finRange 6).map fun i => WORDS.get (picks i), ?_, ?_, rfl⟩
    · rw [List.length_map, List.length_finRange]
    · intro w hw
      rcases List.mem_map.mp hw with ⟨i, _, rfl⟩
      exact List.get_mem WORDS (picks i).1 (picks i).2

/-- A fixed sequence of word picks for the concrete witness. -/
def examplePicks : Fin 6 → Fin WORDS.length :=
  fun _ => ⟨0, by decide⟩

/-- Witness for C7 at the concrete draw `n = 7` and constant word
picks. -/
theorem regenerate_pairing_spec_witness :
    7 < 1000000 ∧
    (portal_regenerate_pairing exampleConfig 7 examplePicks).pairing_code.length
      = 6 ∧
    (portal_regenerate_pairing exampleConfig 7 examplePicks).linked_devices
      = [] := by
  have h : (7 : Nat) < 1000000 := by decide
  have hs := regenerate_pairing_spec exampleConfig 7 examplePicks h
  exact ⟨h, hs.1, hs.2.2.2⟩
